import Mathlib

/-!
Verification of the breakout repository against its specification.

The development shallowly embeds the two source files:

* `src/src/game/vector.js` — an immutable 2D vector class over JS numbers,
  modelled here over the real numbers `ℝ` (`Math.hypot x y` is
  `Real.sqrt (x^2 + y^2)`).
* `src/src/components/scene.js` — the React reducer driving the game loop.
  The scene state and the action handlers are translated directly; the
  collaborators that live in files outside the embedded sources
  (`LEVELS`, `getGameStateFromLevel`, `getNewGameState` from
  `../game/levels` and `../game/core`) are abstracted as parameters of a
  `CoreEnv` structure, and the impure clock `Date.now()` is passed in as an
  explicit `now` argument.  JS `undefined` fields are modelled as `Option`
  values: `state.stopTime` is `undefined` or a `Date.now()` timestamp
  (a positive integer in any real execution), so the JS truthiness test
  `if (state.stopTime)` is modelled as the `Option` being `some`.
  `localStorage` writes are external side effects with no bearing on the
  returned state and are noted in comments where the source performs them.
-/

namespace Breakout

/-- Planar vector from `src/src/game/vector.js`, `class Vector` with fields `x`, `y`. -/
structure Vector where
  x : ℝ
  y : ℝ

namespace Vector

/-- Source `scaleBy(number)`: returns `new Vector(this.x * number, this.y * number)`. -/
def scaleBy (v : Vector) (number : ℝ) : Vector :=
  ⟨v.x * number, v.y * number⟩

/-- Source `length()`: returns `Math.hypot(this.x, this.y)`, the Euclidean norm. -/
noncomputable def length (v : Vector) : ℝ :=
  Real.sqrt (v.x ^ 2 + v.y ^ 2)

/-- Source `add(v)`: returns `new Vector(this.x + v.x, this.y + v.y)`. -/
def add (v w : Vector) : Vector :=
  ⟨v.x + w.x, v.y + w.y⟩

/-- Source `normalize()`: returns `this.scaleBy(1 / this.length())` — note: no guard
for the zero-length case is present in the source. -/
noncomputable def normalize (v : Vector) : Vector :=
  v.scaleBy (1 / v.length)

/-- Source `subtract(v)`: returns `new Vector(this.x - v.x, this.y - v.y)`. -/
def subtract (v w : Vector) : Vector :=
  ⟨v.x - w.x, v.y - w.y⟩

/-- Source `dotProduct(v)`: returns `this.x * v.x + this.y * v.y`. -/
def dotProduct (v w : Vector) : ℝ :=
  v.x * w.x + v.y * w.y

/-- Source `projectOn(other)`: `amt = this.dotProduct(other) / other.length()`, then
`new Vector(amt * other.x, amt * other.y)`. -/
noncomputable def projectOn (v other : Vector) : Vector :=
  let amt := v.dotProduct other / other.length
  ⟨amt * other.x, amt * other.y⟩

/-- Source `reflect(normal)`: returns `this.subtract(this.projectOn(normal).scaleBy(2))`. -/
noncomputable def reflect (v normal : Vector) : Vector :=
  v.subtract ((v.projectOn normal).scaleBy 2)

/-- Source `crossProduct(v)`: returns `this.x * v.y - v.x * this.y`. -/
def crossProduct (v w : Vector) : ℝ :=
  v.x * w.y - w.x * v.y

end Vector

/-! ## `src/src/components/scene.js` — the reducer and its action handlers

Numbers handled by the scene (times, key codes, lives) are modelled as `ℤ`,
container/game dimensions as `ℝ`.  The game-state type produced by
`getGameStateFromLevel` / `getNewGameState` lives in `../game/core` (outside
the embedded sources); `scene.js` only reads its `size`, `blocks` (through
`blocks.length`) and `lives` fields, so it is modelled as a structure with
those fields, parametric in the block type `B`.  Level descriptors (from
`../game/levels`) are an abstract type `L`. -/

/-- Size record with `width` and `height` (`containerSize`, `game.size`). -/
structure CSize where
  width : ℝ
  height : ℝ

/-- The fields of the core game state that `scene.js` reads, parametric in
the block type `B`.  Produced by the external `getGameStateFromLevel` and
`getNewGameState`. -/
structure Game (B : Type) where
  size : CSize
  blocks : List B
  lives : ℤ

/-- The pair of closures returned by `getProjectors` and spread into the
scene state (`projectDistance`, `projectVector`). -/
structure Projectors where
  projectDistance : ℝ → ℝ
  projectVector : Vector → Vector

/-- Source `getProjectors(containerSize, gameSize)`: unit on screen is the smaller
of the width and height ratios; returns the two projection closures. -/
noncomputable def getProjectors (containerSize gameSize : CSize) : Projectors :=
  let widthRatio := containerSize.width / gameSize.width
  let heightRatio := containerSize.height / gameSize.height
  let unitOnScreen := min widthRatio heightRatio
  { projectDistance := fun distance => distance * unitOnScreen
    projectVector := fun vector => vector.scaleBy unitOnScreen }

/-- Movement intents (`MOVEMENT`) from `../game/core` as used by the key handler. -/
inductive Movement where
  | LEFT
  | RIGHT
deriving DecidableEq

/-- Source `MOVEMENT_KEYS.LEFT = [65, 37]`. -/
def MOVEMENT_KEYS_LEFT : List ℤ := [65, 37]

/-- Source `MOVEMENT_KEYS.RIGHT = [68, 39]`. -/
def MOVEMENT_KEYS_RIGHT : List ℤ := [68, 39]

/-- Source `const STOP_KEY = 32`. -/
def STOP_KEY : ℤ := 32

/-- The collaborators of `scene.js` that live outside the embedded sources:
the `LEVELS` array from `../game/levels` and the two state builders from
`../game/core`.  `getGameStateFromLevel` takes an `Option L` because the
source indexes `LEVELS[i]`, which in JS yields `undefined` (here `none`)
when `i` is out of range. -/
structure CoreEnv (B L : Type) where
  LEVELS : List L
  getGameStateFromLevel : Option L → Game B
  getNewGameState : Game B → Option Movement → ℤ → Game B

/-- Indexing `LEVELS[i]` — JS array access, `undefined` (`none`) out of range. -/
def CoreEnv.levelAt {B L : Type} (env : CoreEnv B L) (i : ℕ) : Option L :=
  env.LEVELS.get? i

/-- The reducer state built by `getInitialState` and threaded through every
handler: level index, game state, container size, the two projector
closures, the last update time, the pause timestamp (`undefined` when
running) and the current movement intent (`undefined` when idle). -/
structure SceneState (B L : Type) where
  level : ℕ
  game : Game B
  containerSize : CSize
  projectDistance : ℝ → ℝ
  projectVector : Vector → Vector
  time : ℤ
  stopTime : Option ℤ
  movement : Option Movement

/-- Handler `HANDLER[ACTION.CONTAINER_SIZE_CHANGE]`: store the new container size
and recompute the projectors against the current game size. -/
noncomputable def HANDLER_CONTAINER_SIZE_CHANGE {B L : Type}
    (state : SceneState B L) (containerSize : CSize) : SceneState B L :=
  let p := getProjectors containerSize state.game.size
  { state with
    containerSize := containerSize
    projectDistance := p.projectDistance
    projectVector := p.projectVector }

/-- Handler `HANDLER[ACTION.KEY_DOWN]`: a left-movement key sets `movement = LEFT`,
a right-movement key sets `movement = RIGHT`, any other key leaves the
state unchanged. -/
def HANDLER_KEY_DOWN {B L : Type}
    (state : SceneState B L) (key : ℤ) : SceneState B L :=
  if MOVEMENT_KEYS_LEFT.contains key then
    { state with movement := some Movement.LEFT }
  else if MOVEMENT_KEYS_RIGHT.contains key then
    { state with movement := some Movement.RIGHT }
  else state

/-- Handler `HANDLER[ACTION.KEY_UP]`: clear `movement`; on the stop key, toggle the
pause: if `stopTime` is set, resume — clear it and advance `time` by the
paused duration `Date.now() - stopTime`; otherwise record `Date.now()` in
`stopTime`.  `now` is the value of `Date.now()` at this dispatch. -/
def HANDLER_KEY_UP {B L : Type}
    (now : ℤ) (state : SceneState B L) (key : ℤ) : SceneState B L :=
  let newState : SceneState B L := { state with movement := none }
  if key = STOP_KEY then
    match state.stopTime with
    | some st => { newState with stopTime := none, time := state.time + now - st }
    | none => { newState with stopTime := some now }
  else newState

/-- Handler `HANDLER[ACTION.TICK]`: if paused, return the state unchanged.
Otherwise run `getNewGameState` over the elapsed time.  If lives dropped
below 1, restart the current level.  Else if the blocks ran out, compute
the next level index (the source compares `state.level` with
`LEVELS.length`), persist it (a `localStorage` side effect, no state
change), rebuild the game from `LEVELS[state.level]` and refresh the
projectors.  Otherwise carry the new game forward.  `now` is the value of
`Date.now()` at this dispatch. -/
noncomputable def HANDLER_TICK {B L : Type}
    (env : CoreEnv B L) (now : ℤ) (state : SceneState B L) : SceneState B L :=
  if state.stopTime.isSome then state
  else
    let time := now
    let newGame := env.getNewGameState state.game state.movement (time - state.time)
    let newState : SceneState B L := { state with time := time }
    if newGame.lives < 1 then
      { newState with game := env.getGameStateFromLevel (env.levelAt state.level) }
    else if newGame.blocks.length < 1 then
      let level := if state.level = env.LEVELS.length then state.level else state.level + 1
      -- localStorage.setItem of the new level — external side effect
      let game := env.getGameStateFromLevel (env.levelAt state.level)
      let p := getProjectors state.containerSize game.size
      { newState with
        level := level
        game := game
        projectDistance := p.projectDistance
        projectVector := p.projectVector }
    else
      { newState with game := newGame }

/-- A dispatched action: the four types in `ACTION` with their payloads,
plus `other s`, a dispatch whose `type` string `s` is none of the four, so
the `HANDLER[type]` lookup misses. -/
inductive Action where
  | CONTAINER_SIZE_CHANGE (containerSize : CSize)
  | KEY_DOWN (key : ℤ)
  | KEY_UP (key : ℤ)
  | TICK
  | other (tag : String)

/-- The reducer: dispatch on the action type; `if (!handler) return state`
for an unhandled type. -/
noncomputable def reducer {B L : Type} (env : CoreEnv B L) (now : ℤ)
    (state : SceneState B L) : Action → SceneState B L
  | Action.CONTAINER_SIZE_CHANGE containerSize =>
      HANDLER_CONTAINER_SIZE_CHANGE state containerSize
  | Action.KEY_DOWN key => HANDLER_KEY_DOWN state key
  | Action.KEY_UP key => HANDLER_KEY_UP now state key
  | Action.TICK => HANDLER_TICK env now state
  | Action.other _ => state

/-! ### Concrete fixtures used by witnesses and counterexamples -/

/-- A concrete core game state for witnesses (one block, three lives). -/
noncomputable def gameA : Game ℕ :=
  { size := ⟨1, 1⟩, blocks := [0], lives := 3 }

/-- A one-level environment whose tick leaves the game unchanged. -/
noncomputable def envA : CoreEnv ℕ ℕ :=
  { LEVELS := [0]
    getGameStateFromLevel := fun _ => gameA
    getNewGameState := fun g _ _ => g }

/-- A one-level environment whose tick exhausts the lives. -/
noncomputable def envLoss : CoreEnv ℕ ℕ :=
  { LEVELS := [0]
    getGameStateFromLevel := fun _ => gameA
    getNewGameState := fun g _ _ => { g with lives := 0 } }

/-- The game built from level 0 of the two-level environment. -/
noncomputable def game0 : Game ℕ :=
  { size := ⟨1, 1⟩, blocks := [10], lives := 3 }

/-- The game built from level 1 of the two-level environment. -/
noncomputable def game1 : Game ℕ :=
  { size := ⟨1, 1⟩, blocks := [11], lives := 3 }

/-- A two-level environment whose tick always clears the blocks; the games
of the two levels are distinguishable by their block lists. -/
noncomputable def envTwo : CoreEnv ℕ ℕ :=
  { LEVELS := [0, 1]
    getGameStateFromLevel := fun l =>
      match l with
      | some 0 => game0
      | some 1 => game1
      | _ => { size := ⟨1, 1⟩, blocks := [], lives := 0 }
    getNewGameState := fun g _ _ => { g with blocks := [] } }

/-- A concrete paused scene state (`stopTime` holds a timestamp). -/
noncomputable def statePaused : SceneState ℕ ℕ :=
  { level := 0
    game := gameA
    containerSize := ⟨1, 1⟩
    projectDistance := fun d => d
    projectVector := fun v => v
    time := 3
    stopTime := some 5
    movement := none }

/-- The same scene state, running (`stopTime` is `undefined`). -/
noncomputable def stateRunning : SceneState ℕ ℕ :=
  { statePaused with stopTime := none }

/-- A running scene state sitting on level 0 of the two-level environment. -/
noncomputable def stateLevel0 : SceneState ℕ ℕ :=
  { stateRunning with level := 0, game := game0 }

/-- A running scene state sitting on level 1 — the final valid index — of
the two-level environment. -/
noncomputable def stateLevel1 : SceneState ℕ ℕ :=
  { stateRunning with level := 1, game := game1 }

/-! ## Theorems -/

/-- Helper: the length of the vector `(3, 4)` is `5`. -/
theorem length_three_four : (Vector.mk 3 4).length = 5 := by
  unfold Vector.length
  rw [show ((3:ℝ) ^ 2 + 4 ^ 2) = 5 ^ 2 by norm_num]
  exact Real.sqrt_sq (by norm_num)

/-- Helper: the vector `(0, 1)` is a unit vector. -/
theorem length_zero_one : (Vector.mk 0 1).length = 1 := by
  unfold Vector.length
  rw [show ((0:ℝ) ^ 2 + 1 ^ 2) = 1 by norm_num]
  exact Real.sqrt_one

/-- Claim C8: for every vector `v` and all scalars `k` and `j`,
`v.scaleBy(k).scaleBy(j)` equals `v.scaleBy(k*j)`. -/
theorem scaleBy_scaleBy (v : Vector) (k j : ℝ) :
    (v.scaleBy k).scaleBy j = v.scaleBy (k * j) := by
  simp [Vector.scaleBy, mul_assoc]

/-- Claim C6: for every `u` and every `v` with `v.length() ≠ 0`,
`u.projectOn(v)` is `(amt * v.x, amt * v.y)` with
`amt = u.dotProduct(v) / v.length()` — one division by the length, not by
its square. -/
theorem projectOn_formula (u v : Vector) (h : v.length ≠ 0) :
    u.projectOn v =
      ⟨u.dotProduct v / v.length * v.x, u.dotProduct v / v.length * v.y⟩ :=
  rfl

/-- Witness for C6 at `u = (1, 2)`, `v = (3, 4)`. -/
theorem projectOn_formula_witness :
    (Vector.mk 3 4).length ≠ 0 ∧
      (Vector.mk 1 2).projectOn (Vector.mk 3 4) =
        ⟨(Vector.mk 1 2).dotProduct (Vector.mk 3 4) / (Vector.mk 3 4).length * 3,
          (Vector.mk 1 2).dotProduct (Vector.mk 3 4) / (Vector.mk 3 4).length * 4⟩ := by
  have h : (Vector.mk 3 4).length ≠ 0 := by
    rw [length_three_four]; norm_num
  exact ⟨h, projectOn_formula (Vector.mk 1 2) (Vector.mk 3 4) h⟩

/-- Claim C3: for every `v` and unit `n`, `v.reflect(n)` equals
`v.subtract(projectOn(n).scaleBy(2))`; and reflecting `(1, -1)` off the
unit normal `(0, 1)` yields `(1, 1)`. -/
theorem reflect_formula :
    (∀ v n : Vector, n.length = 1 →
        v.reflect n = v.subtract ((v.projectOn n).scaleBy 2)) ∧
      (Vector.mk 1 (-1)).reflect (Vector.mk 0 1) = Vector.mk 1 1 := by
  constructor
  · intro v n _
    rfl
  · simp [Vector.reflect, Vector.projectOn, Vector.subtract, Vector.scaleBy,
      Vector.dotProduct, length_zero_one]
    norm_num

/-- Witness for the unit-normal hypothesis of C3 at `v = (3, 4)`, `n = (0, 1)`. -/
theorem reflect_formula_witness :
    (Vector.mk 0 1).length = 1 ∧
      (Vector.mk 3 4).reflect (Vector.mk 0 1) =
        (Vector.mk 3 4).subtract
          (((Vector.mk 3 4).projectOn (Vector.mk 0 1)).scaleBy 2) :=
  ⟨length_zero_one, reflect_formula.1 (Vector.mk 3 4) (Vector.mk 0 1) length_zero_one⟩

/-- Claim C4: `normalize()` is `scaleBy(1/length())` with no guard for the
zero-length case, and whenever `v.length() ≠ 0` the result has length 1
(in this real-number model every value is finite). -/
theorem normalize_spec :
    (∀ v : Vector, v.normalize = v.scaleBy (1 / v.length)) ∧
      ∀ v : Vector, v.length ≠ 0 → v.normalize.length = 1 := by
  refine ⟨fun v => rfl, fun v h => ?_⟩
  have h0 : (0:ℝ) ≤ v.x ^ 2 + v.y ^ 2 := by positivity
  have hL2 : v.length ^ 2 = v.x ^ 2 + v.y ^ 2 := Real.sq_sqrt h0
  show Real.sqrt ((v.x * (1 / v.length)) ^ 2 + (v.y * (1 / v.length)) ^ 2) = 1
  have key : (v.x * (1 / v.length)) ^ 2 + (v.y * (1 / v.length)) ^ 2 = 1 := by
    field_simp
    linarith [hL2]
  rw [key, Real.sqrt_one]

/-- Witness for C4 at `v = (3, 4)`. -/
theorem normalize_spec_witness :
    (Vector.mk 3 4).length ≠ 0 ∧ (Vector.mk 3 4).normalize.length = 1 := by
  have h : (Vector.mk 3 4).length ≠ 0 := by
    rw [length_three_four]; norm_num
  exact ⟨h, normalize_spec.2 (Vector.mk 3 4) h⟩

/-- Claim C2: reflection off a unit normal conserves the Euclidean length of
the reflected vector. -/
theorem reflect_length (v n : Vector) (h : n.length = 1) :
    (v.reflect n).length = v.length := by
  have hn : n.x ^ 2 + n.y ^ 2 = 1 := Real.sqrt_eq_one.mp h
  have hp : v.projectOn n = ⟨v.dotProduct n * n.x, v.dotProduct n * n.y⟩ := by
    unfold Vector.projectOn
    rw [h]
    simp
  unfold Vector.length Vector.reflect Vector.subtract Vector.scaleBy
  rw [hp]
  simp only [Vector.dotProduct]
  congr 1
  linear_combination (4 * (v.x * n.x + v.y * n.y) ^ 2) * hn

/-- Witness for C2 at `v = (3, 4)`, `n = (0, 1)`. -/
theorem reflect_length_witness :
    (Vector.mk 0 1).length = 1 ∧
      ((Vector.mk 3 4).reflect (Vector.mk 0 1)).length = (Vector.mk 3 4).length :=
  ⟨length_zero_one, reflect_length (Vector.mk 3 4) (Vector.mk 0 1) length_zero_one⟩

/-- Claim C7: a TICK dispatched while `stopTime` is set returns the input
state unchanged — every field keeps its value. -/
theorem tick_paused {B L : Type} (env : CoreEnv B L) (now : ℤ)
    (state : SceneState B L) (h : state.stopTime.isSome) :
    HANDLER_TICK env now state = state := by
  unfold HANDLER_TICK
  rw [if_pos h]

/-- Witness for C7 at the concrete paused state. -/
theorem tick_paused_witness :
    statePaused.stopTime.isSome = true ∧
      HANDLER_TICK envA 7 statePaused = statePaused :=
  ⟨rfl, tick_paused envA 7 statePaused rfl⟩

/-- Claim C5: a TICK whose new game has lives below 1 restarts the same
level — the returned state keeps the level index and carries a game rebuilt
from `LEVELS[state.level]`. -/
theorem tick_lives_exhausted {B L : Type} (env : CoreEnv B L) (now : ℤ)
    (state : SceneState B L) (hrun : state.stopTime = none)
    (hlives : (env.getNewGameState state.game state.movement (now - state.time)).lives < 1) :
    HANDLER_TICK env now state =
      { state with
        time := now
        game := env.getGameStateFromLevel (env.levelAt state.level) } := by
  unfold HANDLER_TICK
  rw [hrun]
  simp only [Option.isSome_none, Bool.false_eq_true, if_false]
  rw [if_pos hlives]

/-- Witness for C5: one tick of the life-exhausting environment. -/
theorem tick_lives_exhausted_witness :
    stateRunning.stopTime = none ∧
      (envLoss.getNewGameState stateRunning.game stateRunning.movement
          (7 - stateRunning.time)).lives < 1 ∧
      HANDLER_TICK envLoss 7 stateRunning =
        { stateRunning with
          time := 7
          game := envLoss.getGameStateFromLevel (envLoss.levelAt stateRunning.level) } := by
  refine ⟨rfl, ?_, ?_⟩
  · show (0:ℤ) < 1
    norm_num
  · exact tick_lives_exhausted envLoss 7 stateRunning rfl (by show (0:ℤ) < 1; norm_num)

/-- Claim C10: a KEY_UP with the stop key while `stopTime` is set resumes
the game — `stopTime` cleared, `movement` cleared, and `time` advanced by
exactly the paused duration `now - stopTime`. -/
theorem key_up_resume {B L : Type} (now : ℤ) (state : SceneState B L)
    (st : ℤ) (h : state.stopTime = some st) :
    HANDLER_KEY_UP now state STOP_KEY =
      { state with
        movement := none
        stopTime := none
        time := state.time + now - st } := by
  unfold HANDLER_KEY_UP
  rw [h]
  simp

/-- Witness for C10 at the concrete paused state and `now = 7`. -/
theorem key_up_resume_witness :
    statePaused.stopTime = some 5 ∧
      HANDLER_KEY_UP 7 statePaused STOP_KEY =
        { statePaused with
          movement := none
          stopTime := none
          time := statePaused.time + 7 - 5 } :=
  ⟨rfl, key_up_resume 7 statePaused 5 rfl⟩

/-- Claim C9: dispatching an action whose type is none of
CONTAINER_SIZE_CHANGE, KEY_DOWN, KEY_UP or TICK returns the input state
unchanged. -/
theorem reducer_unknown_action {B L : Type} (env : CoreEnv B L) (now : ℤ)
    (state : SceneState B L) (tag : String) :
    reducer env now state (Action.other tag) = state :=
  rfl

/-- Claim C1 counterexample (code bug): on a level clear the TICK handler
rebuilds the game from `LEVELS[state.level]` — the OLD level — while the
level index advances; and its hold test compares with `LEVELS.length`
instead of `LEVELS.length - 1`, so from the final valid index 1 of a
two-level game it advances to the out-of-range index 2 instead of holding.
From level 0 the returned game carries the blocks `[10]` of level 0 though the
newly current level 1 builds blocks `[11]`. -/
theorem tick_level_clear_bug :
    (HANDLER_TICK envTwo 7 stateLevel0).level = 1 ∧
      (HANDLER_TICK envTwo 7 stateLevel0).game.blocks = [10] ∧
      (envTwo.getGameStateFromLevel (envTwo.levelAt 1)).blocks = [11] ∧
      (HANDLER_TICK envTwo 7 stateLevel1).level = 2 ∧
      envTwo.LEVELS.length = 2 :=
  ⟨rfl, rfl, rfl, rfl, rfl⟩

end Breakout
